import Mathlib

/-!
Verification of the solace content-scoring and consistency engine.

The definitions below are a shallow embedding of the relevant parts of
solace (src/solace/models.py, src/solace/badges.py, src/solace/settings.py):
Python integers are modelled as Int, the stored Vote rows for a single post
as an association list from user id to delta (SQLAlchemy `first()` picks the
first matching row, `session.delete` removes that row), and the per-user
counters as a total function from user ids to a record of counters.
`atomic_add(obj, field, delta)` (database.py) performs `field := field + delta`
on the stored row and mirrors it locally; within a single transaction it is
exactly an increment, which is how it is modelled here.  Side effects that do
not touch the fields the theorems speak about (hotness updates, activity
touches, badge awards triggered from the vote path) are modelled separately
in their own sections.
-/

namespace Solace

/-! ### settings.REPUTATION_MAP (settings.py) -/

def GAIN_ON_UPVOTE : Int := 10
def GAIN_ON_QUESTION_UPVOTE : Int := 1
def LOSE_ON_DOWNVOTE : Int := 2
def DOWNVOTE_PENALTY : Int := 1
def GAIN_ON_ACCEPTED_ANSWER : Int := 50
def LOSE_ON_LOST_ANSWER : Int := 50

/-! ### Vote ledger model (models.py: Post._set_vote, Post._revert_vote, _Vote) -/

/-- Per-user counters: `User.reputation`, `User.upvotes`, `User.downvotes`. -/
structure UserCtr where
  reputation : Int
  upvotes : Int
  downvotes : Int
deriving Repr, DecidableEq

/-- The static configuration of the post being voted on: its author and
whether it is a topic's question post (`Post.is_question`; a topic row with
`question = self` exists exactly for question posts). -/
structure PostCfg where
  author : Nat
  is_question : Bool
deriving Repr, DecidableEq

/-- The mutable state touched by the voting code: the post's `votes` column,
the owning topic's mirrored `votes` column, the stored `_Vote` rows for this
post (user id, delta), and all user counters. -/
structure VoteState where
  votes : Int
  topic_votes : Int
  ledger : List (Nat × Int)
  users : Nat → UserCtr

/-- Point update of the user-counter table. -/
def upd_user (users : Nat → UserCtr) (u : Nat) (f : UserCtr → UserCtr) : Nat → UserCtr :=
  fun v => if v = u then f (users v) else users v

/-- `_Vote.query.filter_by(user=user, post=self).first()`. -/
def find_vote (ledger : List (Nat × Int)) (u : Nat) : Option (Nat × Int) :=
  ledger.find? (fun r => r.1 == u)

/-- `vote.delta = delta`: update the first stored row of the user in place. -/
def update_vote : List (Nat × Int) → Nat → Int → List (Nat × Int)
  | [], _, _ => []
  | r :: rest, u, d => if r.1 == u then (r.1, d) :: rest else r :: update_vote rest u d

/-- `atomic_add(self, 'votes', d)` on the post. -/
def add_votes (s : VoteState) (d : Int) : VoteState :=
  { s with votes := s.votes + d }

/-- `atomic_add(user, 'reputation', d)`. -/
def add_rep (s : VoteState) (u : Nat) (d : Int) : VoteState :=
  { s with users := upd_user s.users u (fun c => { c with reputation := c.reputation + d }) }

/-- `atomic_add(user, 'upvotes', d)`. -/
def add_up (s : VoteState) (u : Nat) (d : Int) : VoteState :=
  { s with users := upd_user s.users u (fun c => { c with upvotes := c.upvotes + d }) }

/-- `atomic_add(user, 'downvotes', d)`. -/
def add_down (s : VoteState) (u : Nat) (d : Int) : VoteState :=
  { s with users := upd_user s.users u (fun c => { c with downvotes := c.downvotes + d }) }

/-- The topic-mirror step of `_set_vote`: if a topic has this post as its
question, `topic.votes = self.votes`. -/
def mirror_topic (cfg : PostCfg) (s : VoteState) : VoteState :=
  if cfg.is_question then { s with topic_votes := s.votes } else s

/-- The `delta > 0` / `delta < 0` tail of `_set_vote`: voter cast counters and
the reputation policy, including the self-downvote carve-out
(`if self.author != user`). -/
def apply_vote_effects (cfg : PostCfg) (s : VoteState) (u : Nat) (delta : Int) : VoteState :=
  if delta > 0 then
    add_rep (add_up s u 1) cfg.author
      (if cfg.is_question then GAIN_ON_QUESTION_UPVOTE else GAIN_ON_UPVOTE)
  else if delta < 0 then
    let s1 := add_down s u 1
    if cfg.author ≠ u then
      add_rep (add_rep s1 cfg.author (-LOSE_ON_DOWNVOTE)) u (-DOWNVOTE_PENALTY)
    else s1
  else s

/-- `Post._revert_vote(vote, user)`: undo the counter and reputation effects
of a stored vote with delta `vdelta` cast by `u` (the ledger row itself is
removed or rewritten by the caller, `_set_vote`). -/
def revert_vote (cfg : PostCfg) (s : VoteState) (u : Nat) (vdelta : Int) : VoteState :=
  let s1 := add_votes s (-vdelta)
  if vdelta > 0 then
    add_rep (add_up s1 u (-1)) cfg.author
      (-(if cfg.is_question then GAIN_ON_QUESTION_UPVOTE else GAIN_ON_UPVOTE))
  else if vdelta < 0 then
    let s2 := add_down s1 u (-1)
    if u ≠ cfg.author then
      add_rep (add_rep s2 cfg.author LOSE_ON_DOWNVOTE) u DOWNVOTE_PENALTY
    else s2
  else s1

/-- `Post._set_vote(user, delta)`.  Mirrors the source line by line: look up
the existing row; on `delta == 0` delete and revert it if present; otherwise
create a row or revert-and-rewrite the existing one and add `delta` to
`post.votes`; then mirror to the topic and apply the cast/reputation
effects. -/
def set_vote (cfg : PostCfg) (s : VoteState) (u : Nat) (delta : Int) : VoteState :=
  let vote := find_vote s.ledger u
  let s1 :=
    if delta = 0 then
      match vote with
      | some v => revert_vote cfg { s with ledger := s.ledger.eraseP (fun r => r.1 == u) } u v.2
      | none => s
    else
      match vote with
      | none => add_votes { s with ledger := s.ledger ++ [(u, delta)] } delta
      | some v =>
          add_votes { revert_vote cfg s u v.2 with ledger := update_vote s.ledger u delta } delta
  apply_vote_effects cfg (mirror_topic cfg s1) u delta

/-- Run a sequence of `_set_vote` calls, each a pair (user, delta). -/
def run_votes (cfg : PostCfg) (s : VoteState) : List (Nat × Int) → VoteState
  | [] => s
  | op :: ops => run_votes cfg (set_vote cfg s op.1 op.2) ops

/-- A freshly created post: `votes = 0`, no stored rows (`Post.__init__` and
`Topic.__init__` both start the counters at zero). -/
def fresh_post (users : Nat → UserCtr) : VoteState :=
  { votes := 0, topic_votes := 0, ledger := [], users := users }

/-- Sum of the deltas of the stored Vote rows. -/
def ledger_sum (l : List (Nat × Int)) : Int :=
  (l.map Prod.snd).sum

/-- Number of stored rows of one user. -/
def user_rows (l : List (Nat × Int)) (u : Nat) : Nat :=
  l.countP (fun r => r.1 == u)

def zero_users : Nat → UserCtr := fun _ => ⟨0, 0, 0⟩

/-! ### Accept-answer model (models.py: Topic.accept_answer) -/

/-- The state touched by `Topic.accept_answer`: the topic's `answer`
reference (a post id), the `is_answer` flag per post, the cached
`answer_author`, and the users' reputations.  Post authorship is given by
the ambient `author_of` map. -/
structure AcceptState where
  answer : Option Nat
  is_answer : Nat → Bool
  answer_author : Option Nat
  reputation : Nat → Int

/-- Point update of an Int-valued table. -/
def upd_int (f : Nat → Int) (u : Nat) (d : Int) : Nat → Int :=
  fun v => if v = u then f v + d else f v

/-- `Topic.accept_answer(post)`: demote and debit the previously accepted
answer if any, then promote and credit the new one if any, then store the
new answer reference.  (The trailing `try_award('accept', ...)` call only
touches the badge store, modelled in its own section.) -/
def accept_answer (author_of : Nat → Nat) (s : AcceptState) (post : Option Nat) : AcceptState :=
  let s1 :=
    match s.answer with
    | some old =>
        { s with
          is_answer := fun p => if p = old then false else s.is_answer p,
          reputation := upd_int s.reputation (author_of old) (-LOSE_ON_LOST_ANSWER) }
    | none => s
  let s2 :=
    match post with
    | some p =>
        { s1 with
          is_answer := fun q => if q = p then true else s1.is_answer q,
          reputation := upd_int s1.reputation (author_of p) GAIN_ON_ACCEPTED_ANSWER,
          answer_author := some (author_of p) }
    | none => s1
  { s2 with answer := post }

/-! ### Deletion cascade model (models.py: Post.delete, Post.restore) -/

/-- The state touched by `Post.delete` / `Post.restore` for one post: its
`is_deleted` flag, the owning topic's `is_deleted` flag and `reply_count`,
and the `tagged` counters of the tags bound to the topic (in binding
order). -/
structure DeleteState where
  post_deleted : Bool
  topic_deleted : Bool
  tags : List Int
  reply_count : Int
deriving Repr, DecidableEq

/-- `Post.delete()`: no-op when already deleted; for a question post mark
the topic deleted and decrement every bound tag's `tagged`; for a reply
decrement the topic's `reply_count`; finally set `is_deleted`. -/
def post_delete (is_question : Bool) (s : DeleteState) : DeleteState :=
  if s.post_deleted then s
  else
    let s1 :=
      if is_question then
        { s with topic_deleted := true, tags := s.tags.map (fun t => t - 1) }
      else
        { s with reply_count := s.reply_count - 1 }
    { s1 with post_deleted := true }

/-- `Post.restore()`: no-op when not deleted; otherwise exactly undo the
effects of `delete`. -/
def post_restore (is_question : Bool) (s : DeleteState) : DeleteState :=
  if !s.post_deleted then s
  else
    let s1 :=
      if is_question then
        { s with topic_deleted := false, tags := s.tags.map (fun t => t + 1) }
      else
        { s with reply_count := s.reply_count + 1 }
    { s1 with post_deleted := false }

/-! ### Hotness (models.py: Topic._update_hotness)

The Python code works on IEEE doubles; following the usual shallow
embedding the float arithmetic is modelled over the reals.  The creation
date is represented by its (real) number of seconds since the Unix epoch;
the code obtains that same quantity from the timedelta to
`datetime(1970, 1, 1)` as `days * 86400 + seconds + microseconds / 1e6`. -/

/-- Python's `round(x, 7)`: round to seven decimal digits. -/
noncomputable def round7 (x : ℝ) : ℝ :=
  (round (x * 10 ^ 7) : ℤ) / 10 ^ 7

/-- `Topic._update_hotness`, transcribed from the source: `secs` is the
seconds-since-epoch value minus `1134028003`, `order` is
`math.log(max(abs(votes), 1), 10)` (i.e. `log x / log 10`), `sign` the
chained comparison, and the result `round(order + sign * secs / 45000, 7)`. -/
noncomputable def update_hotness (votes : Int) (secs_since_epoch : ℝ) : ℝ :=
  let secs : ℝ := secs_since_epoch - 1134028003
  let order : ℝ := Real.log ((max |votes| 1 : Int) : ℝ) / Real.log 10
  let sign : ℝ := if votes > 0 then 1 else if votes < 0 then -1 else 0
  round7 (order + sign * secs / 45000)

/-- Modelled from the spec's words (for comparison with `update_hotness`):
let `secs` be the seconds between the creation date and the fixed epoch
reference constant (the Unix epoch offset by 1134028003 seconds), let
`order = log10(max(|votes|, 1))` and `sign = sign(votes)`; the hotness is
`round(order + sign * secs / 45000, 7)`. -/
noncomputable def hotness_spec (votes : Int) (secs_since_epoch : ℝ) : ℝ :=
  let epoch_ref : ℝ := 1134028003
  let secs : ℝ := secs_since_epoch - epoch_ref
  let order : ℝ := Real.logb 10 ((max |votes| 1 : Int) : ℝ)
  round7 (order + (Int.sign votes : ℝ) * secs / 45000)

/-! ### Topic vote lookup (models.py: Topic._get_vote, User.has_upvoted,
User.has_downvoted, User.has_not_voted)

`Topic._get_vote` evaluates `self.question._get_vote(user)` but has no
`return` statement, so it returns `None`.  The `has_*` predicates then
compare that `None` against the int `0`.  solace runs on Python 2, where
`None` compares smaller than every integer (`None < 0` is true, `None > 0`
and `None == 0` are false); the comparison model below follows those
semantics. -/

/-- `Post._get_vote(user)`: the stored delta, or 0 when no row exists (the
per-request `_vote_cache` only memoizes this value and is transparent for a
single lookup). -/
def post_get_vote (ledger : List (Nat × Int)) (u : Nat) : Int :=
  match find_vote ledger u with
  | some v => v.2
  | none => 0

/-- `Topic._get_vote(user)`: calls through to the question post but lacks a
`return`, so the looked-up value is discarded and the result is `None`. -/
def topic_get_vote (ledger : List (Nat × Int)) (u : Nat) : Option Int :=
  let _ := post_get_vote ledger u
  none

/-- Python 2 `<` on an optional int versus an int: `None` is smaller than
every integer. -/
def py2_lt : Option Int → Int → Bool
  | none, _ => true
  | some a, b => a < b

/-- Python 2 `>` on an optional int versus an int. -/
def py2_gt : Option Int → Int → Bool
  | none, _ => false
  | some a, b => b < a

/-- Python 2 `==` on an optional int versus an int: never true for `None`. -/
def py2_eq : Option Int → Int → Bool
  | none, _ => false
  | some a, b => a == b

/-- `User.has_upvoted(topic)`: `topic._get_vote(user) > 0`. -/
def has_upvoted_topic (ledger : List (Nat × Int)) (u : Nat) : Bool :=
  py2_gt (topic_get_vote ledger u) 0

/-- `User.has_downvoted(topic)`: `topic._get_vote(user) < 0`. -/
def has_downvoted_topic (ledger : List (Nat × Int)) (u : Nat) : Bool :=
  py2_lt (topic_get_vote ledger u) 0

/-- `User.has_not_voted(topic)`: `topic._get_vote(user) == 0`. -/
def has_not_voted_topic (ledger : List (Nat × Int)) (u : Nat) : Bool :=
  py2_eq (topic_get_vote ledger u) 0

/-! ### Badge award engine (badges.py: try_award, the badge catalogue, and
models.py: UserBadge, User._badges)

A `UserBadge` row is a pair of the badge identity and the optional payload
(`str(post.id)`, modelled as the id itself).  The badge store maps each
user id to that user's `_badges` list, in append order.  The badge
callbacks read the live `user._badges` collection, so they take the store
as an argument. -/

/-- The identities of the eleven catalogued badges. -/
inductive Bid
  | critic
  | self_critic
  | editor
  | inquirer
  | troubleshooter
  | nice_answer
  | good_answer
  | great_answer
  | unique_answer
  | reversal
  | self_learner
deriving Repr, DecidableEq

/-- The badge store: every user's `_badges` list of (badge, payload) rows. -/
def BStore := Nat → List (Bid × Option Nat)

/-- The data of a post that the badge callbacks read: its id, author,
`votes`, `is_answer`, and the owning topic's `votes` and author. -/
structure PostSnap where
  id : Nat
  author : Nat
  votes : Int
  is_answer : Bool
  topic_votes : Int
  topic_author : Nat
deriving Repr, DecidableEq

/-- A domain event fed to `try_award`, one constructor per `on_X` callback
family. -/
inductive BEvent
  | vote (user : Nat) (post : PostSnap) (delta : Int)
  | accept (user : Nat) (post : Option PostSnap)
  | reply (user : Nat) (post : PostSnap)
  | new_topic (user : Nat)
  | edit (user : Nat) (post : PostSnap)

/-- A catalogued badge: its identity, the `single_awarded` flag, and the
optional event callbacks.  A callback returns `none` (not qualified) or a
(user, payload) pair, the payload being `none` when the Python callback
returns a bare user. -/
structure Badge where
  identifier : Bid
  single_awarded : Bool
  on_vote : Option (BStore → Nat → PostSnap → Int → Option (Nat × Option Nat)) := none
  on_accept : Option (BStore → Nat → Option PostSnap → Option (Nat × Option Nat)) := none
  on_reply : Option (BStore → Nat → PostSnap → Option (Nat × Option Nat)) := none
  on_new_topic : Option (BStore → Nat → Option (Nat × Option Nat)) := none
  on_edit : Option (BStore → Nat → PostSnap → Option (Nat × Option Nat)) := none

/-- `_try_award_special_answer(post, badge, votes_required)`: skip when the
author already holds a row of `bid` with this post's payload, otherwise
qualify when the post is an answer with enough votes. -/
def special_answer_check (store : BStore) (post : PostSnap) (bid : Bid)
    (votes_required : Int) : Option (Nat × Option Nat) :=
  if (store post.author).any (fun r => r.1 == bid && r.2 == some post.id) then none
  else if post.is_answer = true ∧ votes_required ≤ post.votes then
    some (post.author, some post.id)
  else none

/-- `_try_award_self_learner(post)`. -/
def self_learner_check (store : BStore) (post : PostSnap) : Option (Nat × Option Nat) :=
  if (store post.author).any (fun r => r.1 == Bid.self_learner && r.2 == some post.id) then none
  else if post.is_answer = true ∧ post.author = post.topic_author ∧ 3 ≤ post.votes then
    some (post.author, some post.id)
  else none

/-- `_try_award_reversal(post)`. -/
def reversal_check (store : BStore) (post : PostSnap) : Option (Nat × Option Nat) :=
  if (store post.author).any (fun r => r.1 == Bid.reversal && r.2 == some post.id) then none
  else if post.is_answer = true ∧ 20 ≤ post.votes ∧ post.topic_votes ≤ -5 then
    some (post.author, some post.id)
  else none

def CRITIC : Badge :=
  { identifier := .critic, single_awarded := true,
    on_vote := some fun _ user post delta =>
      if delta < 0 ∧ user ≠ post.author then some (user, none) else none }

def SELF_CRITIC : Badge :=
  { identifier := .self_critic, single_awarded := true,
    on_vote := some fun _ user post delta =>
      if delta < 0 ∧ user = post.author then some (user, none) else none }

def EDITOR : Badge :=
  { identifier := .editor, single_awarded := true,
    on_edit := some fun _ user _ => some (user, none) }

def INQUIRER : Badge :=
  { identifier := .inquirer, single_awarded := true,
    on_new_topic := some fun _ user => some (user, none) }

def TROUBLESHOOTER : Badge :=
  { identifier := .troubleshooter, single_awarded := true,
    on_accept := some fun _ _ post =>
      match post with
      | some p => some (p.author, none)
      | none => none }

def NICE_ANSWER : Badge :=
  { identifier := .nice_answer, single_awarded := false,
    on_accept := some fun store _ post =>
      match post with
      | some p => special_answer_check store p .nice_answer 10
      | none => none,
    on_vote := some fun store _ post _ => special_answer_check store post .nice_answer 10 }

def GOOD_ANSWER : Badge :=
  { identifier := .good_answer, single_awarded := false,
    on_accept := some fun store _ post =>
      match post with
      | some p => special_answer_check store p .good_answer 25
      | none => none,
    on_vote := some fun store _ post _ => special_answer_check store post .good_answer 25 }

/-- Note: the source passes `GOOD_ANSWER` (not `GREAT_ANSWER`) to
`_try_award_special_answer` here, so the duplicate check of the great-answer
badge inspects the good-answer rows. -/
def GREAT_ANSWER : Badge :=
  { identifier := .great_answer, single_awarded := false,
    on_accept := some fun store _ post =>
      match post with
      | some p => special_answer_check store p .good_answer 75
      | none => none,
    on_vote := some fun store _ post _ => special_answer_check store post .good_answer 75 }

/-- Note: like `GREAT_ANSWER`, the duplicate check inspects the good-answer
rows (`GOOD_ANSWER` is passed in the source). -/
def UNIQUE_ANSWER : Badge :=
  { identifier := .unique_answer, single_awarded := false,
    on_accept := some fun store _ post =>
      match post with
      | some p => special_answer_check store p .good_answer 150
      | none => none,
    on_vote := some fun store _ post _ => special_answer_check store post .good_answer 150 }

def REVERSAL : Badge :=
  { identifier := .reversal, single_awarded := false,
    on_accept := some fun store _ post =>
      match post with
      | some p => reversal_check store p
      | none => none,
    on_vote := some fun store _ post _ => reversal_check store post }

def SELF_LEARNER : Badge :=
  { identifier := .self_learner, single_awarded := false,
    on_accept := some fun store _ post =>
      match post with
      | some p => self_learner_check store p
      | none => none,
    on_vote := some fun store _ post _ => self_learner_check store post }

/-- `badge_list` in catalogue order. -/
def badge_list : List Badge :=
  [CRITIC, EDITOR, INQUIRER, TROUBLESHOOTER, NICE_ANSWER, GOOD_ANSWER,
   SELF_LEARNER, SELF_CRITIC, GREAT_ANSWER, UNIQUE_ANSWER, REVERSAL]

/-- Dispatch of `lookup = attrgetter('on_' + event)` followed by the call
`cb(*args)`. -/
def cb_result (b : Badge) (e : BEvent) (store : BStore) : Option (Nat × Option Nat) :=
  match e with
  | .vote u p d => match b.on_vote with | some f => f store u p d | none => none
  | .accept u p => match b.on_accept with | some f => f store u p | none => none
  | .reply u p => match b.on_reply with | some f => f store u p | none => none
  | .new_topic u => match b.on_new_topic with | some f => f store u | none => none
  | .edit u p => match b.on_edit with | some f => f store u p | none => none

/-- The award tail of `try_award`: skip a `single_awarded` badge the user
already holds (`badge in user.badges`), otherwise append a `UserBadge`
row.  (The `UserMessage` notification only touches the message table.) -/
def award_to (store : BStore) (b : Badge) (u : Nat) (pl : Option Nat) : BStore :=
  if b.single_awarded = true ∧ b.identifier ∈ (store u).map Prod.fst then store
  else fun v => if v = u then store v ++ [(b.identifier, pl)] else store v

/-- One iteration of the `for badge in badge_list` loop of `try_award`. -/
def run_badge (e : BEvent) (store : BStore) (b : Badge) : BStore :=
  match cb_result b e store with
  | none => store
  | some (u, pl) => award_to store b u pl

/-- `try_award(event, *args)`. -/
def try_award (e : BEvent) (store : BStore) : BStore :=
  badge_list.foldl (run_badge e) store

/-- Run a sequence of qualifying events through `try_award`. -/
def run_events (events : List BEvent) (store : BStore) : BStore :=
  events.foldl (fun st e => try_award e st) store

/-- The empty badge store. -/
def empty_store : BStore := fun _ => []

/-- Number of `UserBadge` rows of one badge held by one user. -/
def bcnt (store : BStore) (u : Nat) (bid : Bid) : Nat :=
  (store u).countP (fun r => r.1 == bid)

/-- Number of `UserBadge` rows of one badge with one specific payload held
by one user. -/
def pbcnt (store : BStore) (u : Nat) (bid : Bid) (pl : Option Nat) : Nat :=
  (store u).countP (fun r => r.1 == bid && r.2 == pl)

/-- The identifiers of the `single_awarded` badges of the catalogue. -/
def single_bids : List Bid :=
  [.critic, .self_critic, .editor, .inquirer, .troubleshooter]

/-- The identifiers of the repeatable badges whose callbacks de-duplicate
against their own rows. -/
def special_bids : List Bid :=
  [.nice_answer, .good_answer, .reversal, .self_learner]

/-- The badge-store invariant maintained by `try_award`: no great-answer or
unique-answer row is ever recorded (their duplicate checks inspect the
good-answer rows, whose threshold is reached first), each single-awarded
badge is held at most once per user, and each self-de-duplicating
repeatable badge has at most one row per (user, payload). -/
def BadgeInv (store : BStore) : Prop :=
  (∀ u, bcnt store u .great_answer = 0) ∧
  (∀ u, bcnt store u .unique_answer = 0) ∧
  (∀ u bid, bid ∈ single_bids → bcnt store u bid ≤ 1) ∧
  (∀ u bid pl, bid ∈ special_bids → pbcnt store u bid pl ≤ 1)

/-! ## Theorems -/

/-! ### Basic facts about the vote-model building blocks -/

theorem upd_user_same (f : Nat → UserCtr) (u : Nat) (g : UserCtr → UserCtr) :
    upd_user f u g u = g (f u) := by
  simp [upd_user]

theorem upd_user_other (f : Nat → UserCtr) (u v : Nat) (g : UserCtr → UserCtr) (h : v ≠ u) :
    upd_user f u g v = f v := by
  simp [upd_user, h]

@[simp] theorem add_votes_votes (s : VoteState) (d : Int) : (add_votes s d).votes = s.votes + d := rfl
@[simp] theorem add_votes_ledger (s : VoteState) (d : Int) : (add_votes s d).ledger = s.ledger := rfl
@[simp] theorem add_votes_topic (s : VoteState) (d : Int) : (add_votes s d).topic_votes = s.topic_votes := rfl
@[simp] theorem add_votes_users (s : VoteState) (d : Int) : (add_votes s d).users = s.users := rfl

@[simp] theorem add_rep_votes (s : VoteState) (u : Nat) (d : Int) : (add_rep s u d).votes = s.votes := rfl
@[simp] theorem add_rep_ledger (s : VoteState) (u : Nat) (d : Int) : (add_rep s u d).ledger = s.ledger := rfl
@[simp] theorem add_rep_topic (s : VoteState) (u : Nat) (d : Int) : (add_rep s u d).topic_votes = s.topic_votes := rfl

@[simp] theorem add_up_votes (s : VoteState) (u : Nat) (d : Int) : (add_up s u d).votes = s.votes := rfl
@[simp] theorem add_up_ledger (s : VoteState) (u : Nat) (d : Int) : (add_up s u d).ledger = s.ledger := rfl
@[simp] theorem add_up_topic (s : VoteState) (u : Nat) (d : Int) : (add_up s u d).topic_votes = s.topic_votes := rfl

@[simp] theorem add_down_votes (s : VoteState) (u : Nat) (d : Int) : (add_down s u d).votes = s.votes := rfl
@[simp] theorem add_down_ledger (s : VoteState) (u : Nat) (d : Int) : (add_down s u d).ledger = s.ledger := rfl
@[simp] theorem add_down_topic (s : VoteState) (u : Nat) (d : Int) : (add_down s u d).topic_votes = s.topic_votes := rfl

@[simp] theorem mirror_topic_votes (cfg : PostCfg) (s : VoteState) :
    (mirror_topic cfg s).votes = s.votes := by
  unfold mirror_topic; split <;> rfl

@[simp] theorem mirror_topic_ledger (cfg : PostCfg) (s : VoteState) :
    (mirror_topic cfg s).ledger = s.ledger := by
  unfold mirror_topic; split <;> rfl

@[simp] theorem mirror_topic_users (cfg : PostCfg) (s : VoteState) :
    (mirror_topic cfg s).users = s.users := by
  unfold mirror_topic; split <;> rfl

theorem mirror_topic_topic (cfg : PostCfg) (s : VoteState) :
    (mirror_topic cfg s).topic_votes = if cfg.is_question then s.votes else s.topic_votes := by
  unfold mirror_topic; split <;> simp_all

@[simp] theorem apply_vote_effects_votes (cfg : PostCfg) (s : VoteState) (u : Nat) (d : Int) :
    (apply_vote_effects cfg s u d).votes = s.votes := by
  unfold apply_vote_effects; split_ifs <;> rfl

@[simp] theorem apply_vote_effects_ledger (cfg : PostCfg) (s : VoteState) (u : Nat) (d : Int) :
    (apply_vote_effects cfg s u d).ledger = s.ledger := by
  unfold apply_vote_effects; split_ifs <;> rfl

@[simp] theorem apply_vote_effects_topic (cfg : PostCfg) (s : VoteState) (u : Nat) (d : Int) :
    (apply_vote_effects cfg s u d).topic_votes = s.topic_votes := by
  unfold apply_vote_effects; split_ifs <;> rfl

@[simp] theorem revert_vote_ledger (cfg : PostCfg) (s : VoteState) (u : Nat) (d : Int) :
    (revert_vote cfg s u d).ledger = s.ledger := by
  unfold revert_vote; split_ifs <;> rfl

@[simp] theorem revert_vote_topic (cfg : PostCfg) (s : VoteState) (u : Nat) (d : Int) :
    (revert_vote cfg s u d).topic_votes = s.topic_votes := by
  unfold revert_vote; split_ifs <;> rfl

@[simp] theorem revert_vote_votes (cfg : PostCfg) (s : VoteState) (u : Nat) (d : Int) :
    (revert_vote cfg s u d).votes = s.votes - d := by
  unfold revert_vote; split_ifs <;> simp <;> ring

theorem apply_vote_effects_zero (cfg : PostCfg) (s : VoteState) (u : Nat) :
    apply_vote_effects cfg s u 0 = s := by
  simp [apply_vote_effects]

theorem apply_vote_effects_pos (cfg : PostCfg) (s : VoteState) (u : Nat) :
    apply_vote_effects cfg s u 1 =
      add_rep (add_up s u 1) cfg.author
        (if cfg.is_question then GAIN_ON_QUESTION_UPVOTE else GAIN_ON_UPVOTE) := by
  simp [apply_vote_effects]

theorem apply_vote_effects_neg_other (cfg : PostCfg) (s : VoteState) (u : Nat)
    (h : cfg.author ≠ u) :
    apply_vote_effects cfg s u (-1) =
      add_rep (add_rep (add_down s u 1) cfg.author (-LOSE_ON_DOWNVOTE)) u (-DOWNVOTE_PENALTY) := by
  simp [apply_vote_effects, h]

theorem apply_vote_effects_neg_self (cfg : PostCfg) (s : VoteState) (u : Nat)
    (h : cfg.author = u) :
    apply_vote_effects cfg s u (-1) = add_down s u 1 := by
  simp [apply_vote_effects, h]

theorem revert_vote_pos (cfg : PostCfg) (s : VoteState) (u : Nat) :
    revert_vote cfg s u 1 =
      add_rep (add_up (add_votes s (-1)) u (-1)) cfg.author
        (-(if cfg.is_question then GAIN_ON_QUESTION_UPVOTE else GAIN_ON_UPVOTE)) := by
  simp [revert_vote]

theorem revert_vote_neg_other (cfg : PostCfg) (s : VoteState) (u : Nat)
    (h : u ≠ cfg.author) :
    revert_vote cfg s u (-1) =
      add_rep (add_rep (add_down (add_votes s 1) u (-1)) cfg.author LOSE_ON_DOWNVOTE) u
        DOWNVOTE_PENALTY := by
  simp [revert_vote, h]

theorem revert_vote_neg_self (cfg : PostCfg) (s : VoteState) (u : Nat)
    (h : u = cfg.author) :
    revert_vote cfg s u (-1) = add_down (add_votes s 1) u (-1) := by
  simp [revert_vote, h]

/-! ### Unfolding set_vote in its four situations -/

theorem set_vote_fresh (cfg : PostCfg) (s : VoteState) (u : Nat) (d : Int)
    (hv : find_vote s.ledger u = none) (hd : d ≠ 0) :
    set_vote cfg s u d =
      apply_vote_effects cfg
        (mirror_topic cfg (add_votes { s with ledger := s.ledger ++ [(u, d)] } d)) u d := by
  unfold set_vote
  rw [hv]
  simp [hd]

theorem set_vote_existing (cfg : PostCfg) (s : VoteState) (u : Nat) (d : Int)
    (v : Nat × Int) (hv : find_vote s.ledger u = some v) (hd : d ≠ 0) :
    set_vote cfg s u d =
      apply_vote_effects cfg
        (mirror_topic cfg
          (add_votes { revert_vote cfg s u v.2 with ledger := update_vote s.ledger u d } d))
        u d := by
  unfold set_vote
  rw [hv]
  simp [hd]

theorem set_vote_retract (cfg : PostCfg) (s : VoteState) (u : Nat)
    (v : Nat × Int) (hv : find_vote s.ledger u = some v) :
    set_vote cfg s u 0 =
      mirror_topic cfg
        (revert_vote cfg { s with ledger := s.ledger.eraseP (fun r => r.1 == u) } u v.2) := by
  unfold set_vote
  rw [hv]
  simp [apply_vote_effects_zero]

theorem set_vote_retract_missing (cfg : PostCfg) (s : VoteState) (u : Nat)
    (hv : find_vote s.ledger u = none) :
    set_vote cfg s u 0 = mirror_topic cfg s := by
  unfold set_vote
  rw [hv]
  simp [apply_vote_effects_zero]

theorem find_vote_append_self (l : List (Nat × Int)) (u : Nat) (d : Int)
    (hv : find_vote l u = none) :
    find_vote (l ++ [(u, d)]) u = some (u, d) := by
  unfold find_vote at *
  rw [List.find?_append, hv]
  simp

theorem eraseP_append_self (l : List (Nat × Int)) (u : Nat) (d : Int)
    (hv : find_vote l u = none) :
    (l ++ [(u, d)]).eraseP (fun r => r.1 == u) = l := by
  have h := List.find?_eq_none.mp hv
  rw [List.eraseP_append_right _ h]
  simp [List.eraseP_cons]

/-! ### C2: cast-then-retract round trip -/

/-- Workhorse for the cast-then-retract round trip, shared by the vote
round-trip and self-downvote theorems. -/
theorem cast_retract_restores (cfg : PostCfg) (s : VoteState) (u : Nat) (d : Int)
    (hv : find_vote s.ledger u = none) (hd : d = 1 ∨ d = -1) :
    (set_vote cfg (set_vote cfg s u d) u 0).votes = s.votes ∧
    ((set_vote cfg (set_vote cfg s u d) u 0).users u).upvotes = (s.users u).upvotes ∧
    ((set_vote cfg (set_vote cfg s u d) u 0).users u).downvotes = (s.users u).downvotes ∧
    ((set_vote cfg (set_vote cfg s u d) u 0).users cfg.author).reputation
      = (s.users cfg.author).reputation ∧
    ((set_vote cfg (set_vote cfg s u d) u 0).users u).reputation
      = (s.users u).reputation := by
  have hd0 : d ≠ 0 := by rcases hd with rfl | rfl <;> norm_num
  rw [set_vote_fresh cfg s u d hv hd0]
  have hL1 :
      (apply_vote_effects cfg
        (mirror_topic cfg (add_votes { s with ledger := s.ledger ++ [(u, d)] } d)) u d).ledger
        = s.ledger ++ [(u, d)] := by
    simp
  rw [set_vote_retract cfg _ u (u, d) (by rw [hL1]; exact find_vote_append_self _ _ _ hv)]
  rcases hd with rfl | rfl
  · rw [apply_vote_effects_pos, revert_vote_pos]
    by_cases hau : cfg.author = u
    · refine ⟨by simp, ?_, ?_, ?_, ?_⟩ <;>
        simp [add_rep, add_up, add_votes, upd_user, hau]
    · refine ⟨by simp, ?_, ?_, ?_, ?_⟩ <;>
        simp [add_rep, add_up, add_votes, upd_user, hau, Ne.symm hau]
  · by_cases hau : cfg.author = u
    · rw [apply_vote_effects_neg_self cfg _ u hau, revert_vote_neg_self cfg _ u hau.symm]
      refine ⟨by simp, ?_, ?_, ?_, ?_⟩ <;>
        simp [add_down, add_votes, upd_user, hau]
    · rw [apply_vote_effects_neg_other cfg _ u hau,
        revert_vote_neg_other cfg _ u (Ne.symm hau)]
      refine ⟨by simp, ?_, ?_, ?_, ?_⟩ <;>
        simp [add_rep, add_down, add_votes, upd_user, hau, Ne.symm hau]

/-- Claim C2: for a user with no existing vote on the post, casting a vote
(+1 or −1) and then retracting it (delta 0) restores `post.votes`, the
voter's `upvotes` and `downvotes` counters, and the post author's
`reputation` exactly to their pre-cast values. -/
theorem vote_round_trip (cfg : PostCfg) (s : VoteState) (u : Nat) (d : Int)
    (hv : find_vote s.ledger u = none) (hd : d = 1 ∨ d = -1) :
    (set_vote cfg (set_vote cfg s u d) u 0).votes = s.votes ∧
    ((set_vote cfg (set_vote cfg s u d) u 0).users u).upvotes = (s.users u).upvotes ∧
    ((set_vote cfg (set_vote cfg s u d) u 0).users u).downvotes = (s.users u).downvotes ∧
    ((set_vote cfg (set_vote cfg s u d) u 0).users cfg.author).reputation
      = (s.users cfg.author).reputation :=
  let h := cast_retract_restores cfg s u d hv hd
  ⟨h.1, h.2.1, h.2.2.1, h.2.2.2.1⟩

/-- Witness for C2: a fresh upvote by user 1 on a question by user 0, then
retracted, leaves `post.votes` at its original value. -/
theorem vote_round_trip_case :
    (set_vote ⟨0, true⟩ (set_vote ⟨0, true⟩ (fresh_post zero_users) 1 1) 1 0).votes
      = (fresh_post zero_users).votes :=
  (vote_round_trip ⟨0, true⟩ (fresh_post zero_users) 1 1 rfl (Or.inl rfl)).1

/-! ### C3: switch delta -/

theorem update_vote_length (l : List (Nat × Int)) (u : Nat) (d : Int) :
    (update_vote l u d).length = l.length := by
  induction l with
  | nil => rfl
  | cons r rest ih => unfold update_vote; split <;> simp [ih]

theorem find_update_vote (l : List (Nat × Int)) (u : Nat) (d : Int) (v : Nat × Int)
    (hv : find_vote l u = some v) :
    find_vote (update_vote l u d) u = some (v.1, d) := by
  induction l with
  | nil => simp [find_vote] at hv
  | cons r rest ih =>
    unfold find_vote at hv ih ⊢
    unfold update_vote
    cases h : (r.1 == u) with
    | true =>
        rw [List.find?_cons] at hv
        simp only [h] at hv
        cases hv
        simp [List.find?_cons, h]
    | false =>
        rw [List.find?_cons] at hv
        simp only [h] at hv
        simp [List.find?_cons, h, ih hv]

theorem user_rows_update_vote (l : List (Nat × Int)) (u : Nat) (d : Int) (w : Nat) :
    user_rows (update_vote l u d) w = user_rows l w := by
  induction l with
  | nil => rfl
  | cons r rest ih =>
    unfold update_vote
    split
    · unfold user_rows
      simp [List.countP_cons]
    · unfold user_rows at ih ⊢
      simp [List.countP_cons, ih]

/-- Claim C3: switching an existing +1 vote to −1 changes `post.votes` by
exactly −2, rewrites the single existing Vote row in place (the ledger
keeps its length and per-user row counts, and the user's row now carries
−1) and, on a question post, leaves the topic's mirrored `votes` equal to
`post.votes`. -/
theorem switch_vote_delta (cfg : PostCfg) (s : VoteState) (u : Nat) (v : Nat × Int)
    (hv : find_vote s.ledger u = some v) (h1 : v.2 = 1) :
    (set_vote cfg s u (-1)).votes = s.votes - 2 ∧
    (set_vote cfg s u (-1)).ledger = update_vote s.ledger u (-1) ∧
    (set_vote cfg s u (-1)).ledger.length = s.ledger.length ∧
    find_vote (set_vote cfg s u (-1)).ledger u = some (v.1, -1) ∧
    (∀ w, user_rows (set_vote cfg s u (-1)).ledger w = user_rows s.ledger w) ∧
    (cfg.is_question = true → (set_vote cfg s u (-1)).topic_votes = (set_vote cfg s u (-1)).votes) := by
  rw [set_vote_existing cfg s u (-1) v hv (by norm_num)]
  refine ⟨by simp [h1]; ring, by simp, by simp [update_vote_length], ?_, ?_, ?_⟩
  · simp [find_update_vote s.ledger u (-1) v hv]
  · intro w; simp [user_rows_update_vote]
  · intro hq
    simp [mirror_topic_topic, hq]

/-- Witness for C3: user 1 switches a +1 vote to −1 on a question post with
one stored row. -/
theorem switch_vote_delta_case :
    (set_vote ⟨0, true⟩
      { votes := 1, topic_votes := 1, ledger := [(1, 1)], users := zero_users } 1 (-1)).votes
      = 1 - 2 :=
  (switch_vote_delta ⟨0, true⟩
    { votes := 1, topic_votes := 1, ledger := [(1, 1)], users := zero_users } 1 (1, 1)
    rfl rfl).1

/-! ### C4: self-downvote immunity -/

/-- Claim C4: a user downvoting their own post (with no prior vote there)
keeps their reputation unchanged, retracting that self-downvote also keeps
it unchanged, and the suppression applies only to the author: a distinct
voter with no prior vote pays the downvote penalty and costs the author the
downvote loss. -/
theorem self_downvote_immunity (cfg : PostCfg) (s : VoteState)
    (hv : find_vote s.ledger cfg.author = none) :
    ((set_vote cfg s cfg.author (-1)).users cfg.author).reputation
      = (s.users cfg.author).reputation ∧
    ((set_vote cfg (set_vote cfg s cfg.author (-1)) cfg.author 0).users cfg.author).reputation
      = (s.users cfg.author).reputation ∧
    (∀ u, u ≠ cfg.author → find_vote s.ledger u = none →
      ((set_vote cfg s u (-1)).users u).reputation
        = (s.users u).reputation - DOWNVOTE_PENALTY ∧
      ((set_vote cfg s u (-1)).users cfg.author).reputation
        = (s.users cfg.author).reputation - LOSE_ON_DOWNVOTE) := by
  refine ⟨?_, ?_, ?_⟩
  · rw [set_vote_fresh cfg s cfg.author (-1) hv (by norm_num),
      apply_vote_effects_neg_self cfg _ cfg.author rfl]
    simp [add_down, upd_user]
  · exact (cast_retract_restores cfg s cfg.author (-1) hv (Or.inr rfl)).2.2.2.1
  · intro u hu hvu
    rw [set_vote_fresh cfg s u (-1) hvu (by norm_num),
      apply_vote_effects_neg_other cfg _ u (Ne.symm hu)]
    constructor
    · simp [add_rep, add_down, upd_user, hu, Ne.symm hu]
      ring
    · simp [add_rep, add_down, upd_user, hu, Ne.symm hu]
      ring

/-- Witness for C4: author 0 downvotes their own question from a fresh
state; their reputation is unchanged. -/
theorem self_downvote_immunity_case :
    ((set_vote ⟨0, true⟩ (fresh_post zero_users) 0 (-1)).users 0).reputation
      = ((fresh_post zero_users).users 0).reputation :=
  (self_downvote_immunity ⟨0, true⟩ (fresh_post zero_users) rfl).1

/-! ### C5: reputation scenario -/

/-- Claim C5: in the concrete scenario — question by user 0 with all
counters zero — an upvote by user 1 yields `topic.votes = 1` and author
reputation 1; a following downvote by user 2 yields `topic.votes = 0`,
author reputation −1 and voter reputation −1.  In general a fresh upvote on
a reply post credits the reply author with `GAIN_ON_UPVOTE` (= 10)
reputation. -/
theorem reputation_scenario (cfg : PostCfg) (s : VoteState) (u : Nat)
    (hq : cfg.is_question = false) (hv : find_vote s.ledger u = none) :
    (set_vote ⟨0, true⟩ (fresh_post zero_users) 1 1).topic_votes = 1 ∧
    ((set_vote ⟨0, true⟩ (fresh_post zero_users) 1 1).users 0).reputation = 1 ∧
    (set_vote ⟨0, true⟩ (set_vote ⟨0, true⟩ (fresh_post zero_users) 1 1) 2 (-1)).topic_votes
      = 0 ∧
    ((set_vote ⟨0, true⟩ (set_vote ⟨0, true⟩ (fresh_post zero_users) 1 1) 2 (-1)).users 0).reputation
      = -1 ∧
    ((set_vote ⟨0, true⟩ (set_vote ⟨0, true⟩ (fresh_post zero_users) 1 1) 2 (-1)).users 2).reputation
      = -1 ∧
    ((set_vote cfg s u 1).users cfg.author).reputation
      = (s.users cfg.author).reputation + GAIN_ON_UPVOTE := by
  refine ⟨by decide, by decide, by decide, by decide, by decide, ?_⟩
  rw [set_vote_fresh cfg s u 1 hv (by norm_num), apply_vote_effects_pos]
  simp [add_rep, add_up, upd_user, hq, apply_ite]

/-- Witness for C5: the general reply-upvote clause instantiated on a reply
by author 0, upvoted by user 1 from a fresh state. -/
theorem reputation_scenario_case :
    ((set_vote ⟨0, false⟩ (fresh_post zero_users) 1 1).users 0).reputation
      = ((fresh_post zero_users).users 0).reputation + GAIN_ON_UPVOTE :=
  (reputation_scenario ⟨0, false⟩ (fresh_post zero_users) 1 rfl rfl).2.2.2.2.2

/-! ### C1: ledger conservation -/

@[simp] theorem ledger_sum_nil : ledger_sum [] = 0 := rfl

@[simp] theorem ledger_sum_cons (r : Nat × Int) (l : List (Nat × Int)) :
    ledger_sum (r :: l) = r.2 + ledger_sum l := by
  simp [ledger_sum]

@[simp] theorem ledger_sum_append (l1 l2 : List (Nat × Int)) :
    ledger_sum (l1 ++ l2) = ledger_sum l1 + ledger_sum l2 := by
  simp [ledger_sum]

theorem ledger_sum_eraseP (l : List (Nat × Int)) (p : Nat × Int → Bool) (v : Nat × Int)
    (h : l.find? p = some v) :
    ledger_sum (l.eraseP p) = ledger_sum l - v.2 := by
  induction l with
  | nil => simp at h
  | cons r rest ih =>
    rw [List.find?_cons] at h
    cases hpa : p r with
    | true =>
        simp only [hpa] at h
        cases h
        simp [List.eraseP_cons, hpa]
    | false =>
        simp only [hpa] at h
        simp [List.eraseP_cons, hpa, ih h]
        ring

theorem ledger_sum_update_vote (l : List (Nat × Int)) (u : Nat) (d : Int) (v : Nat × Int)
    (hv : find_vote l u = some v) :
    ledger_sum (update_vote l u d) = ledger_sum l - v.2 + d := by
  induction l with
  | nil => simp [find_vote] at hv
  | cons r rest ih =>
    unfold find_vote at hv ih
    rw [List.find?_cons] at hv
    unfold update_vote
    cases h : (r.1 == u) with
    | true =>
        simp only [h] at hv
        cases hv
        simp
        ring
    | false =>
        simp only [h] at hv
        simp [ih hv]
        ring

theorem user_rows_append (l1 l2 : List (Nat × Int)) (w : Nat) :
    user_rows (l1 ++ l2) w = user_rows l1 w + user_rows l2 w := by
  simp [user_rows, List.countP_append]

theorem user_rows_eq_zero_of_find_none (l : List (Nat × Int)) (u : Nat)
    (hv : find_vote l u = none) :
    user_rows l u = 0 := by
  refine List.countP_eq_zero.mpr ?_
  exact List.find?_eq_none.mp hv

theorem user_rows_eraseP_le (l : List (Nat × Int)) (u w : Nat) :
    user_rows (l.eraseP (fun r => r.1 == u)) w ≤ user_rows l w :=
  (List.eraseP_sublist l).countP_le _

/-- One `_set_vote` call preserves the conservation invariant: the post's
`votes` equals the ledger sum and every user holds at most one row. -/
theorem set_vote_preserves_conservation (cfg : PostCfg) (s : VoteState) (u : Nat) (d : Int)
    (h1 : s.votes = ledger_sum s.ledger) (h2 : ∀ w, user_rows s.ledger w ≤ 1) :
    (set_vote cfg s u d).votes = ledger_sum (set_vote cfg s u d).ledger ∧
    (∀ w, user_rows (set_vote cfg s u d).ledger w ≤ 1) := by
  by_cases hd : d = 0
  · subst hd
    cases hv : find_vote s.ledger u with
    | none =>
        rw [set_vote_retract_missing cfg s u hv]
        exact ⟨by simpa using h1, by simpa using h2⟩
    | some v =>
        rw [set_vote_retract cfg s u v hv]
        constructor
        · simp [ledger_sum_eraseP s.ledger _ v hv, h1]
        · intro w
          simp only [mirror_topic_ledger, revert_vote_ledger]
          exact le_trans (user_rows_eraseP_le s.ledger u w) (h2 w)
  · cases hv : find_vote s.ledger u with
    | none =>
        rw [set_vote_fresh cfg s u d hv hd]
        constructor
        · simp [h1]
        · intro w
          simp only [apply_vote_effects_ledger, mirror_topic_ledger, add_votes_ledger]
          rw [user_rows_append]
          by_cases hw : w = u
          · subst hw
            rw [user_rows_eq_zero_of_find_none s.ledger w hv]
            simp [user_rows, List.countP_cons]
          · have hz : user_rows [(u, d)] w = 0 := by
              simp [user_rows, List.countP_cons, Ne.symm hw]
            rw [hz]
            simpa using h2 w
    | some v =>
        rw [set_vote_existing cfg s u d v hv hd]
        constructor
        · simp [ledger_sum_update_vote s.ledger u d v hv, h1]
        · intro w
          simp only [apply_vote_effects_ledger, mirror_topic_ledger, add_votes_ledger]
          rw [user_rows_update_vote]
          exact h2 w

/-- Auxiliary induction for C1 over the operation sequence. -/
theorem run_votes_conservation (cfg : PostCfg) (ops : List (Nat × Int)) :
    ∀ s : VoteState, s.votes = ledger_sum s.ledger → (∀ w, user_rows s.ledger w ≤ 1) →
      (run_votes cfg s ops).votes = ledger_sum (run_votes cfg s ops).ledger ∧
      (∀ w, user_rows (run_votes cfg s ops).ledger w ≤ 1) := by
  induction ops with
  | nil => intro s h1 h2; exact ⟨h1, h2⟩
  | cons op rest ih =>
      intro s h1 h2
      have h := set_vote_preserves_conservation cfg s op.1 op.2 h1 h2
      exact ih _ h.1 h.2

/-- Claim C1: after any sequence of vote casts, retractions and switches on
one post through `_set_vote`, `post.votes` equals the sum of the deltas of
the currently stored Vote rows, and at most one Vote row exists per user. -/
theorem ledger_conservation (cfg : PostCfg) (users0 : Nat → UserCtr) (ops : List (Nat × Int)) :
    (run_votes cfg (fresh_post users0) ops).votes
      = ledger_sum (run_votes cfg (fresh_post users0) ops).ledger ∧
    (∀ w, user_rows (run_votes cfg (fresh_post users0) ops).ledger w ≤ 1) :=
  run_votes_conservation cfg ops (fresh_post users0) rfl (fun _ => by simp [fresh_post, user_rows])

/-! ### C6: accept/unaccept symmetry -/

theorem upd_int_same (f : Nat → Int) (u : Nat) (d : Int) : upd_int f u d u = f u + d := by
  simp [upd_int]

theorem upd_int_other (f : Nat → Int) (u v : Nat) (d : Int) (h : v ≠ u) :
    upd_int f u d v = f v := by
  simp [upd_int, h]

/-- Claim C6: for a topic with no accepted answer, accepting a reply raises
the reply author's reputation by exactly 50, and un-accepting
(`accept_answer(None)`) restores every user's reputation (in particular the
reply author's) to its pre-accept value and leaves the topic without an
accepted answer. -/
theorem accept_unaccept_symmetry (ao : Nat → Nat) (s : AcceptState) (p : Nat)
    (h : s.answer = none) :
    (accept_answer ao s (some p)).reputation (ao p) = s.reputation (ao p) + 50 ∧
    (∀ u, (accept_answer ao (accept_answer ao s (some p)) none).reputation u
      = s.reputation u) ∧
    (accept_answer ao (accept_answer ao s (some p)) none).answer = none := by
  refine ⟨?_, ?_, ?_⟩
  · simp [accept_answer, h, upd_int_same, GAIN_ON_ACCEPTED_ANSWER]
  · intro u
    by_cases hu : u = ao p
    · subst hu
      simp [accept_answer, h, upd_int_same, GAIN_ON_ACCEPTED_ANSWER, LOSE_ON_LOST_ANSWER]
    · simp [accept_answer, h, upd_int_other _ _ _ _ hu]
  · simp [accept_answer]

/-- Witness for C6 at a concrete topic state. -/
theorem accept_unaccept_symmetry_case :
    (accept_answer id ⟨none, fun _ => false, none, fun _ => 0⟩ (some 7)).reputation 7 = 0 + 50 := by
  exact (accept_unaccept_symmetry id ⟨none, fun _ => false, none, fun _ => 0⟩ 7 rfl).1

/-! ### C8: deletion cascade -/

theorem map_sub_one_add_one (l : List Int) :
    List.map ((fun t : Int => t + 1) ∘ fun t => t - 1) l = l := by
  induction l with
  | nil => rfl
  | cons a l ih => simp [Function.comp, ih]

/-- Claim C8: deleting a topic's question post sets `topic.is_deleted` and
decrements every bound tag's `tagged` count by exactly 1; restoring exactly
reverses both effects; deleting an already-deleted post and restoring a
non-deleted post are no-ops. -/
theorem deletion_cascade (s : DeleteState) (h1 : s.post_deleted = false)
    (h2 : s.topic_deleted = false) :
    (post_delete true s).topic_deleted = true ∧
    (post_delete true s).tags = s.tags.map (fun t => t - 1) ∧
    (post_delete true s).post_deleted = true ∧
    post_restore true (post_delete true s) = s ∧
    post_delete true (post_delete true s) = post_delete true s ∧
    post_restore true s = s := by
  obtain ⟨pd, td, tags, rc⟩ := s
  subst h1 h2
  refine ⟨rfl, rfl, rfl, ?_, rfl, rfl⟩
  simp [post_delete, post_restore, map_sub_one_add_one]

/-- Witness for C8 at a concrete state with two bound tags. -/
theorem deletion_cascade_case :
    post_restore true (post_delete true ⟨false, false, [3, 5], 2⟩)
      = (⟨false, false, [3, 5], 2⟩ : DeleteState) :=
  (deletion_cascade ⟨false, false, [3, 5], 2⟩ rfl rfl).2.2.2.1

/-! ### C9: hotness formula -/

/-- Claim C9: the hotness computed by `_update_hotness` is exactly
`round(order + sign * secs / 45000, 7)` with `secs` the seconds between the
creation date and the fixed epoch reference (the Unix epoch offset by
1134028003 seconds), `order = log10(max(|votes|, 1))` and
`sign = sign(votes)`. -/
theorem hotness_matches_spec (votes : Int) (secs_since_epoch : ℝ) :
    update_hotness votes secs_since_epoch = hotness_spec votes secs_since_epoch := by
  unfold update_hotness hotness_spec
  rw [Real.logb]
  rcases lt_trichotomy votes 0 with h | h | h
  · rw [if_neg (by omega), if_pos h, Int.sign_eq_neg_one_of_neg h]
    norm_num
  · subst h
    norm_num
  · rw [if_pos h, Int.sign_eq_one_of_pos h]
    norm_num

/-! ### C10: Topic._get_vote returns None (corrected)

The claim is right that `Topic._get_vote` lacks a `return` statement and so
yields `None` for every user, making `has_upvoted` and `has_not_voted`
always false on a topic.  But `has_downvoted` compares `None < 0`, which is
TRUE under Python 2 ordering (`None` is smaller than every integer), so not
all three predicates are false. -/

/-- Counterexample for C10 as stated: on a topic with no stored votes,
`has_downvoted` applied to user 0 returns True, so the three predicates are
not all False. -/
theorem topic_vote_lookup_counterexample :
    ¬ (has_upvoted_topic [] 0 = false ∧ has_downvoted_topic [] 0 = false ∧
       has_not_voted_topic [] 0 = false) := by
  decide

/-- Claim C10 (amended): `Topic._get_vote` returns `None` for every user and
every stored ledger, so `has_upvoted` and `has_not_voted` return False for
every user — in particular `has_not_voted` is False even for a user with no
recorded vote — while `has_downvoted` returns True, since Python 2 orders
`None` below every integer. -/
theorem topic_vote_lookup_behavior (ledger : List (Nat × Int)) (u : Nat) :
    topic_get_vote ledger u = none ∧
    has_upvoted_topic ledger u = false ∧
    has_not_voted_topic ledger u = false ∧
    has_downvoted_topic ledger u = true := by
  exact ⟨rfl, rfl, rfl, rfl⟩

/-! ### C7: badge idempotency -/

theorem countP_snoc (l : List (Bid × Option Nat)) (r : Bid × Option Nat)
    (p : Bid × Option Nat → Bool) :
    (l ++ [r]).countP p = l.countP p + if p r then 1 else 0 := by
  simp [List.countP_append, List.countP_cons]

theorem bcnt_ext {s1 s2 : BStore} (v : Nat) (bid : Bid) (h : s1 v = s2 v) :
    bcnt s1 v bid = bcnt s2 v bid := by
  unfold bcnt
  rw [h]

theorem pbcnt_ext {s1 s2 : BStore} (v : Nat) (bid : Bid) (pl : Option Nat) (h : s1 v = s2 v) :
    pbcnt s1 v bid pl = pbcnt s2 v bid pl := by
  unfold pbcnt
  rw [h]

theorem bcnt_eq_zero_of_not_mem (store : BStore) (u : Nat) (bid : Bid)
    (h : bid ∉ (store u).map Prod.fst) : bcnt store u bid = 0 := by
  refine List.countP_eq_zero.mpr ?_
  intro r hr hc
  simp only [beq_iff_eq] at hc
  exact h (List.mem_map.mpr ⟨r, hr, hc⟩)

theorem award_to_apply_other (store : BStore) (b : Badge) (u : Nat) (pl : Option Nat)
    (v : Nat) (hv : v ≠ u) : award_to store b u pl v = store v := by
  by_cases h : b.single_awarded = true ∧ b.identifier ∈ (store u).map Prod.fst
  · rw [award_to, if_pos h]
  · rw [award_to, if_neg h]
    simp [hv]

theorem award_to_apply_self (store : BStore) (b : Badge) (u : Nat) (pl : Option Nat) :
    award_to store b u pl u = store u ∨
    (award_to store b u pl u = store u ++ [(b.identifier, pl)] ∧
      (b.single_awarded = true → bcnt store u b.identifier = 0)) := by
  by_cases h : b.single_awarded = true ∧ b.identifier ∈ (store u).map Prod.fst
  · rw [award_to, if_pos h]
    exact Or.inl rfl
  · rw [award_to, if_neg h]
    refine Or.inr ⟨by simp, fun hs => bcnt_eq_zero_of_not_mem store u b.identifier ?_⟩
    intro hmem
    exact h ⟨hs, hmem⟩

theorem bcnt_award_append (store : BStore) (v : Nat) (bid : Bid) (s : BStore)
    (r : Bid × Option Nat) (h : s v = store v ++ [r]) :
    bcnt s v bid = bcnt store v bid + if (r.1 == bid) then 1 else 0 := by
  unfold bcnt
  rw [h, countP_snoc]

theorem pbcnt_award_append (store : BStore) (v : Nat) (bid : Bid) (pl2 : Option Nat)
    (s : BStore) (r : Bid × Option Nat) (h : s v = store v ++ [r]) :
    pbcnt s v bid pl2 = pbcnt store v bid pl2 + if (r.1 == bid && r.2 == pl2) then 1 else 0 := by
  unfold pbcnt
  rw [h, countP_snoc]

theorem bcnt_award_other_bid (store : BStore) (b : Badge) (u : Nat) (pl : Option Nat)
    (v : Nat) (bid : Bid) (h : bid ≠ b.identifier) :
    bcnt (award_to store b u pl) v bid = bcnt store v bid := by
  by_cases hv : v = u
  · subst hv
    rcases award_to_apply_self store b v pl with he | ⟨he, _⟩
    · exact bcnt_ext v bid he
    · rw [bcnt_award_append store v bid _ _ he]
      simp [Ne.symm h]
  · exact bcnt_ext v bid (award_to_apply_other store b u pl v hv)

theorem pbcnt_award_other_bid (store : BStore) (b : Badge) (u : Nat) (pl pl2 : Option Nat)
    (v : Nat) (bid : Bid) (h : bid ≠ b.identifier) :
    pbcnt (award_to store b u pl) v bid pl2 = pbcnt store v bid pl2 := by
  by_cases hv : v = u
  · subst hv
    rcases award_to_apply_self store b v pl with he | ⟨he, _⟩
    · exact pbcnt_ext v bid pl2 he
    · rw [pbcnt_award_append store v bid pl2 _ _ he]
      simp [Ne.symm h]
  · exact pbcnt_ext v bid pl2 (award_to_apply_other store b u pl v hv)

theorem bcnt_award_single_le (store : BStore) (b : Badge) (u : Nat) (pl : Option Nat)
    (hb : b.single_awarded = true) (v : Nat) (bid : Bid)
    (hle : bcnt store v bid ≤ 1) : bcnt (award_to store b u pl) v bid ≤ 1 := by
  by_cases hv : v = u
  · subst hv
    rcases award_to_apply_self store b v pl with he | ⟨he, hz⟩
    · rw [bcnt_ext v bid he]
      exact hle
    · rw [bcnt_award_append store v bid _ _ he]
      by_cases hbid : b.identifier = bid
      · have h0 : bcnt store v bid = 0 := hbid ▸ hz hb
        simp [hbid, h0]
      · simp only [beq_iff_eq, hbid, if_false]
        simpa using hle
  · rw [bcnt_ext v bid (award_to_apply_other store b u pl v hv)]
    exact hle

theorem pbcnt_award_special_le (store : BStore) (b : Badge) (u : Nat) (pl : Option Nat)
    (hz : pbcnt store u b.identifier pl = 0)
    (v : Nat) (pl2 : Option Nat)
    (hle : pbcnt store v b.identifier pl2 ≤ 1) :
    pbcnt (award_to store b u pl) v b.identifier pl2 ≤ 1 := by
  by_cases hv : v = u
  · subst hv
    rcases award_to_apply_self store b v pl with he | ⟨he, _⟩
    · rw [pbcnt_ext v b.identifier pl2 he]
      exact hle
    · rw [pbcnt_award_append store v b.identifier pl2 _ _ he]
      by_cases hpl : pl = pl2
      · have h0 : pbcnt store v b.identifier pl2 = 0 := hpl ▸ hz
        simp [hpl, h0]
      · simp [hpl]
        exact hle
  · rw [pbcnt_ext v b.identifier pl2 (award_to_apply_other store b u pl v hv)]
    exact hle

theorem pbcnt_le_bcnt (store : BStore) (u : Nat) (bid : Bid) (pl : Option Nat) :
    pbcnt store u bid pl ≤ bcnt store u bid := by
  refine List.countP_mono_left (fun r _ hpa => ?_)
  simp only [Bool.and_eq_true] at hpa
  exact hpa.1

theorem badge_inv_award_single (store : BStore) (b : Badge) (u : Nat) (pl : Option Nat)
    (hb : b.single_awarded = true) (hgr : b.identifier ≠ .great_answer)
    (hun : b.identifier ≠ .unique_answer) (hsp : ∀ bid ∈ special_bids, bid ≠ b.identifier)
    (h : BadgeInv store) : BadgeInv (award_to store b u pl) := by
  obtain ⟨h1, h2, h3, h4⟩ := h
  refine ⟨?_, ?_, ?_, ?_⟩
  · intro v
    rw [bcnt_award_other_bid store b u pl v _ (Ne.symm hgr)]
    exact h1 v
  · intro v
    rw [bcnt_award_other_bid store b u pl v _ (Ne.symm hun)]
    exact h2 v
  · intro v bid hbid
    exact bcnt_award_single_le store b u pl hb v bid (h3 v bid hbid)
  · intro v bid pl2 hbid
    rw [pbcnt_award_other_bid store b u pl pl2 v bid (hsp bid hbid)]
    exact h4 v bid pl2 hbid

theorem badge_inv_award_special (store : BStore) (b : Badge) (u : Nat) (pl : Option Nat)
    (hgr : b.identifier ≠ .great_answer) (hun : b.identifier ≠ .unique_answer)
    (hsing : ∀ bid ∈ single_bids, bid ≠ b.identifier)
    (hz : pbcnt store u b.identifier pl = 0)
    (h : BadgeInv store) : BadgeInv (award_to store b u pl) := by
  obtain ⟨h1, h2, h3, h4⟩ := h
  refine ⟨?_, ?_, ?_, ?_⟩
  · intro v
    rw [bcnt_award_other_bid store b u pl v _ (Ne.symm hgr)]
    exact h1 v
  · intro v
    rw [bcnt_award_other_bid store b u pl v _ (Ne.symm hun)]
    exact h2 v
  · intro v bid hbid
    rw [bcnt_award_other_bid store b u pl v bid (hsing bid hbid)]
    exact h3 v bid hbid
  · intro v bid pl2 hbid
    by_cases hbb : bid = b.identifier
    · subst hbb
      exact pbcnt_award_special_le store b u pl hz v pl2 (h4 v b.identifier pl2 hbid)
    · rw [pbcnt_award_other_bid store b u pl pl2 v bid hbb]
      exact h4 v bid pl2 hbid

theorem run_badge_none (e : BEvent) (store : BStore) (b : Badge)
    (h : cb_result b e store = none) : run_badge e store b = store := by
  unfold run_badge
  rw [h]

theorem run_badge_mono (e : BEvent) (store : BStore) (b : Badge) (v : Nat)
    (r : Bid × Option Nat) (h : r ∈ store v) : r ∈ (run_badge e store b) v := by
  unfold run_badge
  cases cb_result b e store with
  | none => exact h
  | some up =>
      obtain ⟨u, pl⟩ := up
      show r ∈ award_to store b u pl v
      by_cases hv : v = u
      · subst hv
        rcases award_to_apply_self store b v pl with he | ⟨he, _⟩ <;> rw [he]
        · exact h
        · exact List.mem_append_left _ h
      · rw [award_to_apply_other store b u pl v hv]
        exact h

theorem run_badge_inv_single (e : BEvent) (store : BStore) (b : Badge)
    (hb : b.single_awarded = true)
    (hgr : b.identifier ≠ .great_answer) (hun : b.identifier ≠ .unique_answer)
    (hsp : ∀ bid ∈ special_bids, bid ≠ b.identifier)
    (h : BadgeInv store) : BadgeInv (run_badge e store b) := by
  unfold run_badge
  cases cb_result b e store with
  | none => exact h
  | some up =>
      obtain ⟨u, pl⟩ := up
      exact badge_inv_award_single store b u pl hb hgr hun hsp h

theorem run_badge_inv_special (e : BEvent) (store : BStore) (b : Badge)
    (hgr : b.identifier ≠ .great_answer) (hun : b.identifier ≠ .unique_answer)
    (hsing : ∀ bid ∈ single_bids, bid ≠ b.identifier)
    (hsound : ∀ u pl, cb_result b e store = some (u, pl) → pbcnt store u b.identifier pl = 0)
    (h : BadgeInv store) : BadgeInv (run_badge e store b) := by
  unfold run_badge
  cases hcb : cb_result b e store with
  | none => exact h
  | some up =>
      obtain ⟨u, pl⟩ := up
      exact badge_inv_award_special store b u pl hgr hun hsing (hsound u pl hcb) h

theorem dedup_check_sound (l : List (Bid × Option Nat)) (bid : Bid) (pid : Nat) (q : Prop)
    [Decidable q] (author u : Nat) (pl : Option Nat)
    (h : (if l.any (fun r => r.1 == bid && r.2 == some pid) then none
          else if q then some (author, some pid) else none) = some (u, pl)) :
    u = author ∧ pl = some pid ∧ l.countP (fun r => r.1 == bid && r.2 == some pid) = 0 := by
  by_cases h1 : l.any (fun r => r.1 == bid && r.2 == some pid) = true
  · rw [if_pos h1] at h
    simp at h
  · rw [if_neg h1] at h
    by_cases h2 : q
    · rw [if_pos h2] at h
      have h3 := Option.some.inj h
      refine ⟨(congrArg Prod.fst h3).symm, (congrArg Prod.snd h3).symm, ?_⟩
      exact List.countP_eq_zero.mpr (List.any_eq_false.mp ((Bool.not_eq_true _).mp h1))
    · rw [if_neg h2] at h
      simp at h

theorem special_answer_check_sound (store : BStore) (post : PostSnap) (bid : Bid) (n : Int)
    (u : Nat) (pl : Option Nat)
    (h : special_answer_check store post bid n = some (u, pl)) :
    u = post.author ∧ pl = some post.id ∧ pbcnt store post.author bid (some post.id) = 0 := by
  unfold special_answer_check at h
  exact dedup_check_sound _ bid post.id _ post.author u pl h

theorem self_learner_check_sound (store : BStore) (post : PostSnap)
    (u : Nat) (pl : Option Nat)
    (h : self_learner_check store post = some (u, pl)) :
    u = post.author ∧ pl = some post.id ∧
      pbcnt store post.author .self_learner (some post.id) = 0 := by
  unfold self_learner_check at h
  exact dedup_check_sound _ _ post.id _ post.author u pl h

theorem reversal_check_sound (store : BStore) (post : PostSnap)
    (u : Nat) (pl : Option Nat)
    (h : reversal_check store post = some (u, pl)) :
    u = post.author ∧ pl = some post.id ∧
      pbcnt store post.author .reversal (some post.id) = 0 := by
  unfold reversal_check at h
  exact dedup_check_sound _ _ post.id _ post.author u pl h

/-- After the good-answer badge's loop iteration, a good-answer row with
this post's payload is stored for the author whenever the post qualifies at
the good-answer threshold (either it already existed, blocking the award,
or it was appended right now). -/
theorem special_answer_row_after (e : BEvent) (store : BStore) (post : PostSnap) (b : Badge)
    (n : Int) (hb : b.single_awarded = false) (hbid : b.identifier = .good_answer)
    (hcb : cb_result b e store = special_answer_check store post .good_answer n)
    (hq : post.is_answer = true ∧ n ≤ post.votes) :
    (Bid.good_answer, some post.id) ∈ (run_badge e store b) post.author := by
  unfold run_badge
  rw [hcb]
  unfold special_answer_check
  by_cases h1 :
      (store post.author).any (fun r => r.1 == Bid.good_answer && r.2 == some post.id) = true
  · rw [if_pos h1]
    obtain ⟨r, hr, hpr⟩ := List.any_eq_true.mp h1
    simp only [Bool.and_eq_true, beq_iff_eq] at hpr
    have hrv : r = (Bid.good_answer, some post.id) := Prod.ext hpr.1 hpr.2
    exact hrv ▸ hr
  · rw [if_neg h1, if_pos hq]
    show (Bid.good_answer, some post.id)
      ∈ award_to store b post.author (some post.id) post.author
    have hcond : ¬(b.single_awarded = true ∧
        b.identifier ∈ (store post.author).map Prod.fst) := by
      simp [hb]
    rw [award_to, if_neg hcond]
    simp [hbid]

/-- A badge whose duplicate check inspects the good-answer rows at a
threshold of at least 25 never fires once the good-answer row for this post
is guaranteed to exist at qualification: its loop iteration is the
identity.  This is how the great-answer and unique-answer badges are
permanently blocked. -/
theorem run_badge_blocked_by_good (e : BEvent) (store : BStore) (post : PostSnap) (b : Badge)
    (n : Int) (hcb : cb_result b e store = special_answer_check store post .good_answer n)
    (h25 : (25 : Int) ≤ n)
    (hgood : post.is_answer = true → (25 : Int) ≤ post.votes →
      (Bid.good_answer, some post.id) ∈ store post.author) :
    run_badge e store b = store := by
  unfold run_badge
  rw [hcb]
  unfold special_answer_check
  by_cases h1 :
      (store post.author).any (fun r => r.1 == Bid.good_answer && r.2 == some post.id) = true
  · rw [if_pos h1]
  · rw [if_neg h1]
    by_cases hq : post.is_answer = true ∧ n ≤ post.votes
    · exfalso
      have hmem := hgood hq.1 (le_trans h25 hq.2)
      refine h1 (List.any_eq_true.mpr ⟨_, hmem, ?_⟩)
      simp
    · rw [if_neg hq]

theorem try_award_reply_inv (u0 : Nat) (p : PostSnap) (store : BStore)
    (h : BadgeInv store) : BadgeInv (try_award (BEvent.reply u0 p) store) := by
  unfold try_award badge_list
  simp only [List.foldl_cons, List.foldl_nil]
  rw [run_badge_none (BEvent.reply u0 p) _ CRITIC rfl,
    run_badge_none (BEvent.reply u0 p) _ EDITOR rfl,
    run_badge_none (BEvent.reply u0 p) _ INQUIRER rfl,
    run_badge_none (BEvent.reply u0 p) _ TROUBLESHOOTER rfl,
    run_badge_none (BEvent.reply u0 p) _ NICE_ANSWER rfl,
    run_badge_none (BEvent.reply u0 p) _ GOOD_ANSWER rfl,
    run_badge_none (BEvent.reply u0 p) _ SELF_LEARNER rfl,
    run_badge_none (BEvent.reply u0 p) _ SELF_CRITIC rfl,
    run_badge_none (BEvent.reply u0 p) _ GREAT_ANSWER rfl,
    run_badge_none (BEvent.reply u0 p) _ UNIQUE_ANSWER rfl,
    run_badge_none (BEvent.reply u0 p) _ REVERSAL rfl]
  exact h

theorem try_award_new_topic_inv (u0 : Nat) (store : BStore)
    (h : BadgeInv store) : BadgeInv (try_award (BEvent.new_topic u0) store) := by
  unfold try_award badge_list
  simp only [List.foldl_cons, List.foldl_nil]
  rw [run_badge_none (BEvent.new_topic u0) _ CRITIC rfl,
    run_badge_none (BEvent.new_topic u0) _ EDITOR rfl,
    run_badge_none (BEvent.new_topic u0) _ TROUBLESHOOTER rfl,
    run_badge_none (BEvent.new_topic u0) _ NICE_ANSWER rfl,
    run_badge_none (BEvent.new_topic u0) _ GOOD_ANSWER rfl,
    run_badge_none (BEvent.new_topic u0) _ SELF_LEARNER rfl,
    run_badge_none (BEvent.new_topic u0) _ SELF_CRITIC rfl,
    run_badge_none (BEvent.new_topic u0) _ GREAT_ANSWER rfl,
    run_badge_none (BEvent.new_topic u0) _ UNIQUE_ANSWER rfl,
    run_badge_none (BEvent.new_topic u0) _ REVERSAL rfl]
  exact run_badge_inv_single _ _ INQUIRER rfl (by decide) (by decide) (by decide) h

theorem try_award_edit_inv (u0 : Nat) (p : PostSnap) (store : BStore)
    (h : BadgeInv store) : BadgeInv (try_award (BEvent.edit u0 p) store) := by
  unfold try_award badge_list
  simp only [List.foldl_cons, List.foldl_nil]
  rw [run_badge_none (BEvent.edit u0 p) _ CRITIC rfl,
    run_badge_none (BEvent.edit u0 p) _ INQUIRER rfl,
    run_badge_none (BEvent.edit u0 p) _ TROUBLESHOOTER rfl,
    run_badge_none (BEvent.edit u0 p) _ NICE_ANSWER rfl,
    run_badge_none (BEvent.edit u0 p) _ GOOD_ANSWER rfl,
    run_badge_none (BEvent.edit u0 p) _ SELF_LEARNER rfl,
    run_badge_none (BEvent.edit u0 p) _ SELF_CRITIC rfl,
    run_badge_none (BEvent.edit u0 p) _ GREAT_ANSWER rfl,
    run_badge_none (BEvent.edit u0 p) _ UNIQUE_ANSWER rfl,
    run_badge_none (BEvent.edit u0 p) _ REVERSAL rfl]
  exact run_badge_inv_single _ _ EDITOR rfl (by decide) (by decide) (by decide) h

theorem try_award_vote_inv (u0 : Nat) (p : PostSnap) (d : Int) (store : BStore)
    (h : BadgeInv store) : BadgeInv (try_award (BEvent.vote u0 p d) store) := by
  unfold try_award badge_list
  simp only [List.foldl_cons, List.foldl_nil]
  rw [run_badge_none (BEvent.vote u0 p d) _ EDITOR rfl,
    run_badge_none (BEvent.vote u0 p d) _ INQUIRER rfl,
    run_badge_none (BEvent.vote u0 p d) _ TROUBLESHOOTER rfl]
  have hrow : p.is_answer = true → (25 : Int) ≤ p.votes →
      (Bid.good_answer, some p.id) ∈
        (run_badge (BEvent.vote u0 p d)
          (run_badge (BEvent.vote u0 p d)
            (run_badge (BEvent.vote u0 p d)
              (run_badge (BEvent.vote u0 p d)
                (run_badge (BEvent.vote u0 p d) store CRITIC) NICE_ANSWER) GOOD_ANSWER)
            SELF_LEARNER) SELF_CRITIC) p.author := by
    intro ha hvv
    apply run_badge_mono
    apply run_badge_mono
    exact special_answer_row_after (BEvent.vote u0 p d) _ p GOOD_ANSWER 25 rfl rfl rfl ⟨ha, hvv⟩
  rw [run_badge_blocked_by_good (BEvent.vote u0 p d) _ p GREAT_ANSWER 75 rfl
      (by norm_num) hrow,
    run_badge_blocked_by_good (BEvent.vote u0 p d) _ p UNIQUE_ANSWER 150 rfl
      (by norm_num) hrow]
  refine run_badge_inv_special _ _ REVERSAL (by decide) (by decide) (by decide) ?_ ?_
  · intro u pl hcb
    obtain ⟨hu, hpl, hz⟩ := reversal_check_sound _ p u pl hcb
    subst hu
    subst hpl
    exact hz
  refine run_badge_inv_single _ _ SELF_CRITIC rfl (by decide) (by decide) (by decide) ?_
  refine run_badge_inv_special _ _ SELF_LEARNER (by decide) (by decide) (by decide) ?_ ?_
  · intro u pl hcb
    obtain ⟨hu, hpl, hz⟩ := self_learner_check_sound _ p u pl hcb
    subst hu
    subst hpl
    exact hz
  refine run_badge_inv_special _ _ GOOD_ANSWER (by decide) (by decide) (by decide) ?_ ?_
  · intro u pl hcb
    obtain ⟨hu, hpl, hz⟩ := special_answer_check_sound _ p .good_answer 25 u pl hcb
    subst hu
    subst hpl
    exact hz
  refine run_badge_inv_special _ _ NICE_ANSWER (by decide) (by decide) (by decide) ?_ ?_
  · intro u pl hcb
    obtain ⟨hu, hpl, hz⟩ := special_answer_check_sound _ p .nice_answer 10 u pl hcb
    subst hu
    subst hpl
    exact hz
  exact run_badge_inv_single _ _ CRITIC rfl (by decide) (by decide) (by decide) h

theorem try_award_accept_none_inv (u0 : Nat) (store : BStore)
    (h : BadgeInv store) : BadgeInv (try_award (BEvent.accept u0 none) store) := by
  unfold try_award badge_list
  simp only [List.foldl_cons, List.foldl_nil]
  rw [run_badge_none (BEvent.accept u0 none) _ CRITIC rfl,
    run_badge_none (BEvent.accept u0 none) _ EDITOR rfl,
    run_badge_none (BEvent.accept u0 none) _ INQUIRER rfl,
    run_badge_none (BEvent.accept u0 none) _ TROUBLESHOOTER rfl,
    run_badge_none (BEvent.accept u0 none) _ NICE_ANSWER rfl,
    run_badge_none (BEvent.accept u0 none) _ GOOD_ANSWER rfl,
    run_badge_none (BEvent.accept u0 none) _ SELF_LEARNER rfl,
    run_badge_none (BEvent.accept u0 none) _ SELF_CRITIC rfl,
    run_badge_none (BEvent.accept u0 none) _ GREAT_ANSWER rfl,
    run_badge_none (BEvent.accept u0 none) _ UNIQUE_ANSWER rfl,
    run_badge_none (BEvent.accept u0 none) _ REVERSAL rfl]
  exact h

theorem try_award_accept_some_inv (u0 : Nat) (p : PostSnap) (store : BStore)
    (h : BadgeInv store) : BadgeInv (try_award (BEvent.accept u0 (some p)) store) := by
  unfold try_award badge_list
  simp only [List.foldl_cons, List.foldl_nil]
  rw [run_badge_none (BEvent.accept u0 (some p)) _ CRITIC rfl,
    run_badge_none (BEvent.accept u0 (some p)) _ EDITOR rfl,
    run_badge_none (BEvent.accept u0 (some p)) _ INQUIRER rfl,
    run_badge_none (BEvent.accept u0 (some p)) _ SELF_CRITIC rfl]
  have hrow : p.is_answer = true → (25 : Int) ≤ p.votes →
      (Bid.good_answer, some p.id) ∈
        (run_badge (BEvent.accept u0 (some p))
          (run_badge (BEvent.accept u0 (some p))
            (run_badge (BEvent.accept u0 (some p))
              (run_badge (BEvent.accept u0 (some p)) store TROUBLESHOOTER) NICE_ANSWER)
            GOOD_ANSWER) SELF_LEARNER) p.author := by
    intro ha hvv
    apply run_badge_mono
    exact special_answer_row_after (BEvent.accept u0 (some p)) _ p GOOD_ANSWER 25 rfl rfl rfl
      ⟨ha, hvv⟩
  rw [run_badge_blocked_by_good (BEvent.accept u0 (some p)) _ p GREAT_ANSWER 75 rfl
      (by norm_num) hrow,
    run_badge_blocked_by_good (BEvent.accept u0 (some p)) _ p UNIQUE_ANSWER 150 rfl
      (by norm_num) hrow]
  refine run_badge_inv_special _ _ REVERSAL (by decide) (by decide) (by decide) ?_ ?_
  · intro u pl hcb
    obtain ⟨hu, hpl, hz⟩ := reversal_check_sound _ p u pl hcb
    subst hu
    subst hpl
    exact hz
  refine run_badge_inv_special _ _ SELF_LEARNER (by decide) (by decide) (by decide) ?_ ?_
  · intro u pl hcb
    obtain ⟨hu, hpl, hz⟩ := self_learner_check_sound _ p u pl hcb
    subst hu
    subst hpl
    exact hz
  refine run_badge_inv_special _ _ GOOD_ANSWER (by decide) (by decide) (by decide) ?_ ?_
  · intro u pl hcb
    obtain ⟨hu, hpl, hz⟩ := special_answer_check_sound _ p .good_answer 25 u pl hcb
    subst hu
    subst hpl
    exact hz
  refine run_badge_inv_special _ _ NICE_ANSWER (by decide) (by decide) (by decide) ?_ ?_
  · intro u pl hcb
    obtain ⟨hu, hpl, hz⟩ := special_answer_check_sound _ p .nice_answer 10 u pl hcb
    subst hu
    subst hpl
    exact hz
  exact run_badge_inv_single _ _ TROUBLESHOOTER rfl (by decide) (by decide) (by decide) h

theorem try_award_preserves_badge_inv (e : BEvent) (store : BStore) (h : BadgeInv store) :
    BadgeInv (try_award e store) := by
  cases e with
  | vote u p d => exact try_award_vote_inv u p d store h
  | accept u post =>
      cases post with
      | none => exact try_award_accept_none_inv u store h
      | some p => exact try_award_accept_some_inv u p store h
  | reply u p => exact try_award_reply_inv u p store h
  | new_topic u => exact try_award_new_topic_inv u store h
  | edit u p => exact try_award_edit_inv u p store h

theorem badge_inv_empty : BadgeInv empty_store := by
  refine ⟨fun _ => rfl, fun _ => rfl, ?_, ?_⟩
  · intro u bid _
    simp [bcnt, empty_store]
  · intro u bid pl _
    simp [pbcnt, empty_store]

theorem run_events_badge_inv (events : List BEvent) :
    ∀ store : BStore, BadgeInv store → BadgeInv (run_events events store) := by
  induction events with
  | nil => intro store h; exact h
  | cons e rest ih =>
      intro store h
      exact ih _ (try_award_preserves_badge_inv e store h)

/-- Claim C7: over any sequence of qualifying events processed by
`try_award` from an empty badge store, a `single_awarded` badge is never
held more than once by the same user, and a repeatable badge never gains
two UserBadge rows for the same (user, badge, payload) triple. -/
theorem badge_idempotency (events : List BEvent) (u : Nat) (b : Badge)
    (hb : b ∈ badge_list) :
    (b.single_awarded = true →
      bcnt (run_events events empty_store) u b.identifier ≤ 1) ∧
    (b.single_awarded = false →
      ∀ pl, pbcnt (run_events events empty_store) u b.identifier pl ≤ 1) := by
  obtain ⟨h1, h2, h3, h4⟩ := run_events_badge_inv events empty_store badge_inv_empty
  simp only [badge_list, List.mem_cons, List.not_mem_nil, or_false] at hb
  rcases hb with rfl | rfl | rfl | rfl | rfl | rfl | rfl | rfl | rfl | rfl | rfl <;>
    refine ⟨fun hs => ?_, fun hs pl => ?_⟩ <;>
    first
      | exact absurd hs (by decide)
      | exact h3 u _ (by decide)
      | exact h4 u _ pl (by decide)
      | exact (pbcnt_le_bcnt _ u _ pl).trans (le_trans (le_of_eq (h1 u)) (by norm_num))
      | exact (pbcnt_le_bcnt _ u _ pl).trans (le_trans (le_of_eq (h2 u)) (by norm_num))

/-- Witness for C7: after a single new-topic event, user 0 holds the
inquirer badge at most once. -/
theorem badge_idempotency_case :
    bcnt (run_events [BEvent.new_topic 0] empty_store) 0 Bid.inquirer ≤ 1 :=
  (badge_idempotency [BEvent.new_topic 0] 0 INQUIRER
    (by unfold badge_list
        exact List.Mem.tail _ (List.Mem.tail _ (List.Mem.head _)))).1 rfl

end Solace
